/-
Verification of the Materials Explainer backend (src/main.py) against its
natural-language specification.

The service is three thin HTTP handlers over two external collaborators:
the Materials Project client (`mpr.materials.summary.search`) and the
OpenAI chat-completion client.  We embed the handlers as pure Lean
functions; each external collaborator is a function argument (an oracle)
returning either a payload or an error string (a raised exception's text).
Every outbound call made by a handler is recorded in its result, so that
"exactly one outbound query with such-and-such arguments" is a statement
about the returned call log.
-/
import Mathlib

namespace MaterialsExplainer

/-- Python truthiness of an `Optional[str]` value: `None` and the empty
string are falsy, every other string is truthy.  This is the test
performed by `if not q.chemsys and not q.formula:` and `if q.chemsys:`
in `get_materials`, and by `if req.question:` in `explain_material`. -/
def strTruthy : Option String → Bool
  | none => false
  | some s => !(s == "")

/-- Python list slicing `xs[:limit]` for an arbitrary (possibly negative)
integer `limit`: a non-negative bound takes the first `limit` elements
(clamped at the length); a negative bound drops the last `-limit`
elements (clamped at the empty list). -/
def pySliceTo (limit : Int) (xs : List α) : List α :=
  if 0 ≤ limit then xs.take limit.toNat
  else xs.take (xs.length - (-limit).toNat)

/-- The request body of `POST /api/materials` (pydantic `MaterialsQuery`):
optional chemical system, optional formula, integer limit (default 20;
pydantic places no lower bound on it). -/
structure MaterialsQuery where
  chemsys : Option String
  formula : Option String
  limit : Int
deriving DecidableEq, Repr

/-- A materials record as returned by `model_dump()`: a finite map from
field names to (opaque) values, embedded as an association list. -/
structure MRec where
  fields : List (String × String)
deriving DecidableEq, Repr

/-- The keyword arguments `search_by_chemsys` / `search_by_formula` pass
to the outbound `mpr.materials.summary.search` call.  The client accepts
a `limit`-style argument, but the source passes none, so the `limit`
component records which limit argument (if any) was forwarded. -/
structure MPQuery where
  chemsys : Option String
  formula : Option String
  fieldsArg : List String
  limit : Option Int
deriving DecidableEq, Repr

/-- An HTTP error response (`HTTPException(status_code, detail)`). -/
structure HTTPError where
  status : Nat
  detail : String
deriving DecidableEq, Repr

/-- The fixed, hardcoded field list requested from the Materials Project
in both `search_by_chemsys` and `search_by_formula` (src/main.py lines
74-81 and 95-102). -/
def requestedFields : List String :=
  ["material_id", "formula_pretty", "chemsys", "band_gap", "density", "is_stable"]

/-- `search_by_chemsys(chemsys, limit)`: one outbound search keyed by
chemical system with the fixed field list and no forwarded limit; on
success the result list is truncated by `docs[:limit]`; any exception
from the client becomes a 502 whose detail wraps the exception text. -/
def search_by_chemsys (chemsys : String) (limit : Int)
    (upstream : MPQuery → Except String (List MRec)) :
    MPQuery × Except HTTPError (List MRec) :=
  let q : MPQuery := ⟨some chemsys, none, requestedFields, none⟩
  (q, match upstream q with
      | .ok docs => .ok (pySliceTo limit docs)
      | .error exc => .error ⟨502, "Materials Project error: " ++ exc⟩)

/-- `search_by_formula(formula, limit)`: identical to `search_by_chemsys`
except the outbound query is keyed by formula. -/
def search_by_formula (formula : String) (limit : Int)
    (upstream : MPQuery → Except String (List MRec)) :
    MPQuery × Except HTTPError (List MRec) :=
  let q : MPQuery := ⟨none, some formula, requestedFields, none⟩
  (q, match upstream q with
      | .ok docs => .ok (pySliceTo limit docs)
      | .error exc => .error ⟨502, "Materials Project error: " ++ exc⟩)

/-- `POST /api/materials` (`get_materials`): 400 when both `chemsys` and
`formula` are falsy; otherwise dispatch to the chemsys search when
`chemsys` is truthy, else to the formula search.  The first component of
the result is the list of outbound queries issued; the second is the
HTTP response (`{"data": data}` embedded as the `data` list, or the
error).  `HTTPException`s from the helpers are re-raised unchanged. -/
def get_materials (q : MaterialsQuery)
    (upstream : MPQuery → Except String (List MRec)) :
    List MPQuery × Except HTTPError (List MRec) :=
  if !strTruthy q.chemsys && !strTruthy q.formula then
    ([], .error ⟨400, "Provide \x27chemsys\x27 or \x27formula\x27"⟩)
  else if strTruthy q.chemsys then
    let r := search_by_chemsys (q.chemsys.getD "") q.limit upstream
    ([r.1], r.2)
  else
    let r := search_by_formula (q.formula.getD "") q.limit upstream
    ([r.1], r.2)

/-- A chat message (`{"role": ..., "content": ...}`). -/
structure ChatMessage where
  role : String
  content : String
deriving DecidableEq, Repr

/-- The fixed system prompt of `explain_material` (src/main.py 151-158). -/
def system_prompt : String :=
  "You are a materials scientist. " ++
  "You are given JSON data from the Materials Project v2 API. " ++
  "Explain it to a smart non-expert. " ++
  "Use clear language but keep the scientific meaning accurate. " ++
  "Highlight formula, chemical system, band gap (insulator vs semiconductor vs metal), " ++
  "density, and stability, and briefly relate these to possible applications."

/-- The default summary instruction appended when no question is given
(src/main.py 166-169). -/
def default_instruction : String :=
  "\n\nExplain the most important properties, their approximate values, " ++
  "and what they imply physically and technologically."

/-- The user prompt of `explain_material` (src/main.py 160-169).
`rawJson` stands for `json.dumps(req.raw_data, indent=2)`; the JSON
serializer itself is external to the handler and passed in serialized
form.  A present-but-empty question is falsy in Python and takes the
default branch. -/
def user_prompt (rawJson : String) (question : Option String) : String :=
  let p := "Here is one materials JSON entry:\n\n" ++ rawJson
  if strTruthy question then
    p ++ "\n\nUser question: " ++ question.getD "" ++ "\n"
  else
    p ++ default_instruction

/-- The two-message payload sent to the chat-completion endpoint
(src/main.py 175-178). -/
def explain_messages (rawJson : String) (question : Option String) :
    List ChatMessage :=
  [⟨"system", system_prompt⟩, ⟨"user", user_prompt rawJson question⟩]

/-- `POST /api/explain` (`explain_material`): send the two-message prompt
to the LLM client (an oracle from messages to either an exception text or
the list of completion choices' contents); return the first choice's
content as `{"answer": ...}`.  Any exception inside the `try` block —
including the `IndexError` from `completion.choices[0]` on an empty
choice list — becomes a 502 wrapping the exception text. -/
def explain_material (rawJson : String) (question : Option String)
    (llm : List ChatMessage → Except String (List String)) :
    Except HTTPError String :=
  match llm (explain_messages rawJson question) with
  | .error exc => .error ⟨502, "OpenAI error: " ++ exc⟩
  | .ok [] => .error ⟨502, "OpenAI error: list index out of range"⟩
  | .ok (c :: _) => .ok c

/-- The MaterialRecord field set as named by the spec's data model:
material identifier, pretty formula, chemical system, band gap, density,
stability flag, and element count (spec section 3), under the external
API's field names. -/
def specMaterialRecordFields : List String :=
  ["material_id", "formula_pretty", "chemsys", "band_gap", "density",
   "is_stable", "nelements"]

/-- Modelled from the spec: the external materials database, asked for a
fixed field set, returns records containing only the requested fields
(spec sections 4.2 and 8; this projection is performed by the external
client library, outside this repository). -/
def UpstreamHonest (upstream : MPQuery → Except String (List MRec)) : Prop :=
  ∀ q docs, upstream q = .ok docs →
    ∀ r ∈ docs, ∀ kv ∈ r.fields, kv.1 ∈ q.fieldsArg

end MaterialsExplainer

namespace MaterialsExplainer

/-- pySliceTo never invents elements: every record in a slice came from
the upstream list. -/
theorem pySliceTo_subset (n : Int) (xs : List α) : pySliceTo n xs ⊆ xs := by
  unfold pySliceTo
  split <;> exact List.take_subset _ _

/-- C2: a POST /api/materials body with both chemsys and formula absent
yields HTTP 400 and issues no outbound query, for every limit and every
upstream behaviour. -/
theorem c2_missing_both_400 (L : Int) (u : MPQuery → Except String (List MRec)) :
    get_materials ⟨none, none, L⟩ u =
      ([], .error ⟨400, "Provide \x27chemsys\x27 or \x27formula\x27"⟩) := rfl

/-- C10: when chemsys and formula are each absent or the empty string,
the gateway's truthiness check treats them alike and responds 400 with
no outbound query. -/
theorem c10_empty_as_absent_400 (co fo : Option String) (L : Int)
    (u : MPQuery → Except String (List MRec))
    (hc : co = none ∨ co = some "") (hf : fo = none ∨ fo = some "") :
    get_materials ⟨co, fo, L⟩ u =
      ([], .error ⟨400, "Provide \x27chemsys\x27 or \x27formula\x27"⟩) := by
  rcases hc with hc | hc <;> rcases hf with hf | hf <;> subst hc <;> subst hf <;> rfl

/-- C10 witness: chemsys present but empty, formula absent. -/
theorem c10_empty_as_absent_400_witness :
    get_materials ⟨some "", none, 20⟩ (fun _ => Except.ok []) =
      ([], .error ⟨400, "Provide \x27chemsys\x27 or \x27formula\x27"⟩) :=
  c10_empty_as_absent_400 (some "") none 20 (fun _ => Except.ok [])
    (Or.inr rfl) (Or.inl rfl)

/-- C9: when both chemsys and formula are present and non-empty, only the
chemical-system search runs — the single outbound query is keyed by
chemsys with no formula — and the whole handler result is the same as if
formula had been absent. -/
theorem c9_chemsys_precedence (c f : String) (hc : c ≠ "") (hf : f ≠ "")
    (L : Int) (u : MPQuery → Except String (List MRec)) :
    (get_materials ⟨some c, some f, L⟩ u).1 =
      [⟨some c, none, requestedFields, none⟩] ∧
    get_materials ⟨some c, some f, L⟩ u = get_materials ⟨some c, none, L⟩ u := by
  constructor <;> simp [get_materials, strTruthy, hc, search_by_chemsys]

/-- C9 witness at chemsys "Li-Fe-O", formula "LiFePO4". -/
theorem c9_chemsys_precedence_witness :
    (get_materials ⟨some "Li-Fe-O", some "LiFePO4", 20⟩ (fun _ => Except.ok [])).1 =
      [⟨some "Li-Fe-O", none, requestedFields, none⟩] ∧
    get_materials ⟨some "Li-Fe-O", some "LiFePO4", 20⟩ (fun _ => Except.ok []) =
      get_materials ⟨some "Li-Fe-O", none, 20⟩ (fun _ => Except.ok []) :=
  c9_chemsys_precedence "Li-Fe-O" "LiFePO4" (by decide) (by decide) 20
    (fun _ => Except.ok [])

end MaterialsExplainer

namespace MaterialsExplainer

/-- C1 counterexample: for the request body chemsys="Li-Fe-O", limit=5,
the single outbound query carries no limit argument at all — so "limit 5
passed to that outbound call" is false.  The slice to 5 records happens
in the handler, after the call returns. -/
theorem c1_limit_not_forwarded_cex :
    ¬ (∀ mq ∈ (get_materials ⟨some "Li-Fe-O", none, 5⟩
        (fun _ => Except.ok ([] : List MRec))).1, mq.limit = some 5) := by
  decide

/-- C1 (amended): for the request chemsys="Li-Fe-O", limit=5, the handler
issues exactly one outbound query, keyed by chemsys "Li-Fe-O" with the
fixed hardcoded field set and no forwarded limit; on upstream success the
response data is the upstream result truncated to at most 5 records. -/
theorem c1_materials_scenario (u : MPQuery → Except String (List MRec))
    (docs : List MRec)
    (h : u ⟨some "Li-Fe-O", none, requestedFields, none⟩ = .ok docs) :
    (get_materials ⟨some "Li-Fe-O", none, 5⟩ u).1 =
      [⟨some "Li-Fe-O", none, requestedFields, none⟩] ∧
    (get_materials ⟨some "Li-Fe-O", none, 5⟩ u).2 = .ok (pySliceTo 5 docs) ∧
    (pySliceTo 5 docs).length ≤ 5 := by
  refine ⟨rfl, ?_, ?_⟩
  · simp [get_materials, strTruthy, search_by_chemsys, h]
  · simp only [pySliceTo, if_pos (by omega : (0:Int) ≤ 5), List.length_take]
    omega

/-- C1 witness: a concrete upstream returning six records; the response
keeps the first five. -/
theorem c1_materials_scenario_witness :
    (get_materials ⟨some "Li-Fe-O", none, 5⟩
        (fun _ => Except.ok (List.replicate 6 (⟨[]⟩ : MRec)))).1 =
      [⟨some "Li-Fe-O", none, requestedFields, none⟩] ∧
    (get_materials ⟨some "Li-Fe-O", none, 5⟩
        (fun _ => Except.ok (List.replicate 6 (⟨[]⟩ : MRec)))).2 =
      .ok (pySliceTo 5 (List.replicate 6 (⟨[]⟩ : MRec))) ∧
    (pySliceTo 5 (List.replicate 6 (⟨[]⟩ : MRec))).length ≤ 5 :=
  c1_materials_scenario (fun _ => Except.ok (List.replicate 6 ⟨[]⟩))
    (List.replicate 6 ⟨[]⟩) rfl

/-- C3 counterexample: with a negative limit the bound fails.  For
chemsys="Li-Fe-O", limit=-1 and an upstream returning one record, Python
slicing docs[:-1] drops the last record, the response data is [] — and
its length 0 is not at most -1, refuting "length at most L" for every
limit L. -/
theorem c3_negative_limit_cex :
    ¬ (∀ data, (get_materials ⟨some "Li-Fe-O", none, -1⟩
          (fun _ => Except.ok [(⟨[]⟩ : MRec)])).2 = .ok data →
        (data.length : Int) ≤ -1) := by
  intro h
  have h0 := h [] rfl
  norm_num at h0

/-- C3 (amended): for every request that reaches a search with a
non-negative limit, a successful response's data array has length at
most the limit, whatever the upstream returns. -/
theorem c3_limit_bound (u : MPQuery → Except String (List MRec))
    (q : MaterialsQuery) (data : List MRec)
    (hL : 0 ≤ q.limit) (h : (get_materials q u).2 = .ok data) :
    (data.length : Int) ≤ q.limit := by
  unfold get_materials at h
  split at h
  · simp at h
  · split at h <;>
    · simp only [search_by_chemsys, search_by_formula] at h
      split at h
      · cases h
        simp only [pySliceTo, hL, if_true, if_pos, List.length_take]
        omega
      · cases h

/-- C3 witness: limit 1 against an upstream returning two records. -/
theorem c3_limit_bound_witness :
    (0 : Int) ≤ (1 : Int) ∧
    ((pySliceTo 1 [(⟨[]⟩ : MRec), ⟨[]⟩]).length : Int) ≤ (1 : Int) :=
  ⟨by decide,
   c3_limit_bound (fun _ => Except.ok [⟨[]⟩, ⟨[]⟩]) ⟨some "Li-Fe-O", none, 1⟩
     (pySliceTo 1 [⟨[]⟩, ⟨[]⟩]) (by decide) rfl⟩

/-- C4 counterexample: the fixed field list the code requests is not the
seven-field MaterialRecord set named by the spec: the element count
("nelements") is in the spec set but is never requested. -/
theorem c4_field_set_cex :
    ¬ (∀ f, f ∈ requestedFields ↔ f ∈ specMaterialRecordFields) := by
  intro h
  have h1 : "nelements" ∈ requestedFields := (h "nelements").mpr (by decide)
  exact absurd h1 (by decide)

/-- C4 (amended): every outbound query requests exactly the six-field set
material_id, formula_pretty, chemsys, band_gap, density, is_stable (no
element count), and — given the external client's contract of returning
only requested fields — every record of a successful response contains
only fields from that requested set. -/
theorem c4_fields_projection (u : MPQuery → Except String (List MRec))
    (q : MaterialsQuery) (data : List MRec)
    (hu : UpstreamHonest u) (h : (get_materials q u).2 = .ok data) :
    requestedFields =
      ["material_id", "formula_pretty", "chemsys", "band_gap", "density",
       "is_stable"] ∧
    (∀ mq ∈ (get_materials q u).1, mq.fieldsArg = requestedFields) ∧
    ∀ r ∈ data, ∀ kv ∈ r.fields, kv.1 ∈ requestedFields := by
  refine ⟨rfl, ?_, ?_⟩
  · unfold get_materials
    split
    · simp
    · split <;> · intro mq hmq; simp [search_by_chemsys, search_by_formula] at hmq; subst hmq; rfl
  · unfold get_materials at h
    split at h
    · simp at h
    · split at h <;>
      · simp only [search_by_chemsys, search_by_formula] at h
        split at h
        · cases h
          rename_i docs hdocs
          intro r hr kv hkv
          exact hu _ docs hdocs r (pySliceTo_subset _ _ hr) kv hkv
        · cases h

/-- C4 witness: a trivially honest upstream returning one empty record. -/
theorem c4_fields_projection_witness :
    requestedFields =
      ["material_id", "formula_pretty", "chemsys", "band_gap", "density",
       "is_stable"] ∧
    (∀ mq ∈ (get_materials ⟨some "Li-Fe-O", none, 5⟩
        (fun _ => Except.ok [(⟨[]⟩ : MRec)])).1, mq.fieldsArg = requestedFields) ∧
    ∀ r ∈ pySliceTo 5 [(⟨[]⟩ : MRec)], ∀ kv ∈ r.fields, kv.1 ∈ requestedFields :=
  c4_fields_projection (fun _ => Except.ok [⟨[]⟩]) ⟨some "Li-Fe-O", none, 5⟩
    (pySliceTo 5 [⟨[]⟩])
    (by
      intro mq docs hdocs r hr kv hkv
      cases hdocs
      simp only [List.mem_singleton] at hr
      subst hr
      simp at hkv)
    rfl

end MaterialsExplainer

namespace MaterialsExplainer

/-- C5: the outbound user message of /api/explain is user_prompt, and for
a non-empty question the prompt contains both the serialized raw_data and
the exact question text, while with no question it contains the default
summary instruction instead. -/
theorem c5_prompt_contents (j q : String) (hq : q ≠ "") :
    (∀ qn, explain_messages j qn =
      [⟨"system", system_prompt⟩, ⟨"user", user_prompt j qn⟩]) ∧
    (∃ p1 p2, user_prompt j (some q) = p1 ++ j ++ p2) ∧
    (∃ p1 p2, user_prompt j (some q) = p1 ++ q ++ p2) ∧
    (∃ p1 p2, user_prompt j none = p1 ++ default_instruction ++ p2) := by
  refine ⟨fun _ => rfl, ?_, ?_, ?_⟩
  · refine ⟨"Here is one materials JSON entry:\n\n",
      "\n\nUser question: " ++ q ++ "\n", ?_⟩
    simp [user_prompt, strTruthy, hq, String.append_assoc]
  · refine ⟨"Here is one materials JSON entry:\n\n" ++ j ++ "\n\nUser question: ",
      "\n", ?_⟩
    simp [user_prompt, strTruthy, hq, String.append_assoc]
  · refine ⟨"Here is one materials JSON entry:\n\n" ++ j, "", ?_⟩
    simp [user_prompt, strTruthy, String.append_empty]

/-- C5 witness at the spec's scenario question. -/
theorem c5_prompt_contents_witness :
    (∀ qn, explain_messages "json" qn =
      [⟨"system", system_prompt⟩, ⟨"user", user_prompt "json" qn⟩]) ∧
    (∃ p1 p2, user_prompt "json" (some "Is this a semiconductor?") =
      p1 ++ "json" ++ p2) ∧
    (∃ p1 p2, user_prompt "json" (some "Is this a semiconductor?") =
      p1 ++ "Is this a semiconductor?" ++ p2) ∧
    (∃ p1 p2, user_prompt "json" none = p1 ++ default_instruction ++ p2) :=
  c5_prompt_contents "json" "Is this a semiconductor?" (by decide)

/-- C6: when the upstream materials call fails — the client raises, which
covers non-success statuses — a validated /api/materials request yields
an HTTP 502 whose detail wraps and therefore contains the upstream error
text. -/
theorem c6_upstream_error_wrapped (q : MaterialsQuery)
    (u : MPQuery → Except String (List MRec)) (e : String)
    (hval : strTruthy q.chemsys = true ∨ strTruthy q.formula = true)
    (hu : ∀ mq, u mq = .error e) :
    (get_materials q u).2 = .error ⟨502, "Materials Project error: " ++ e⟩ ∧
    ∃ p, "Materials Project error: " ++ e = p ++ e := by
  constructor
  · unfold get_materials
    split
    · rename_i hcond
      rcases hval with h | h <;> simp [h] at hcond
    · split <;> simp [search_by_chemsys, search_by_formula, hu]
  · exact ⟨"Materials Project error: ", rfl⟩

/-- C6 witness: upstream raising on a 503 response body. -/
theorem c6_upstream_error_wrapped_witness :
    (get_materials ⟨some "Li-Fe-O", none, 5⟩
        (fun _ => Except.error "503 Service Unavailable")).2 =
      .error ⟨502, "Materials Project error: " ++ "503 Service Unavailable"⟩ ∧
    ∃ p, "Materials Project error: " ++ "503 Service Unavailable" =
      p ++ "503 Service Unavailable" :=
  c6_upstream_error_wrapped ⟨some "Li-Fe-O", none, 5⟩
    (fun _ => Except.error "503 Service Unavailable") "503 Service Unavailable"
    (Or.inl rfl) (fun _ => rfl)

/-- C7: if the LLM call raises, /api/explain fails with a 502 whose
detail wraps and contains the exception text; moreover no exception
escapes unconverted — every outcome of the handler is either a success
payload or an HTTPError with status 502. -/
theorem c7_llm_error_wrapped (j : String) (qn : Option String)
    (llm : List ChatMessage → Except String (List String)) (e : String)
    (h : llm (explain_messages j qn) = .error e) :
    (explain_material j qn llm = .error ⟨502, "OpenAI error: " ++ e⟩ ∧
     ∃ p, "OpenAI error: " ++ e = p ++ e) ∧
    ∀ llm2 : List ChatMessage → Except String (List String),
      (∃ s, explain_material j qn llm2 = .ok s) ∨
      (∃ d, explain_material j qn llm2 = .error ⟨502, d⟩) := by
  refine ⟨⟨?_, "OpenAI error: ", rfl⟩, ?_⟩
  · simp [explain_material, h]
  · intro llm2
    unfold explain_material
    rcases hr : llm2 (explain_messages j qn) with e2 | cs
    · exact Or.inr ⟨_, rfl⟩
    · cases cs
      · exact Or.inr ⟨_, rfl⟩
      · exact Or.inl ⟨_, rfl⟩

/-- C7 witness: an LLM client raising a rate-limit error. -/
theorem c7_llm_error_wrapped_witness :
    (explain_material "json" none (fun _ => Except.error "rate limit") =
      .error ⟨502, "OpenAI error: " ++ "rate limit"⟩ ∧
     ∃ p, "OpenAI error: " ++ "rate limit" = p ++ "rate limit") ∧
    ∀ llm2 : List ChatMessage → Except String (List String),
      (∃ s, explain_material "json" none llm2 = .ok s) ∨
      (∃ d, explain_material "json" none llm2 = .error ⟨502, d⟩) :=
  c7_llm_error_wrapped "json" none (fun _ => Except.error "rate limit")
    "rate limit" rfl

/-- C8: on a successful LLM call, the handler's answer is exactly the
content of the first completion choice. -/
theorem c8_first_choice_answer (j : String) (qn : Option String)
    (llm : List ChatMessage → Except String (List String))
    (c : String) (rest : List String)
    (h : llm (explain_messages j qn) = .ok (c :: rest)) :
    explain_material j qn llm = .ok c := by
  simp [explain_material, h]

/-- C8 witness: two choices; the first one is returned. -/
theorem c8_first_choice_answer_witness :
    explain_material "json" (some "Is this a semiconductor?")
      (fun _ => Except.ok ["first answer", "second answer"]) =
      .ok "first answer" :=
  c8_first_choice_answer "json" (some "Is this a semiconductor?")
    (fun _ => Except.ok ["first answer", "second answer"])
    "first answer" ["second answer"] rfl

end MaterialsExplainer
